import Mathlib

/-!
Verification of the huntglitch-python client library.

The repository ships a thin HTTP client (`HuntGlitchLogger`) that captures
application exceptions and custom log events and forwards them to a fixed
remote ingestion endpoint.  The package's core module (`logger.py`) exposes
`HuntGlitchLogger`, `send_huntglitch_log` and `capture_exception_and_report`
(see `src/huntglitch_python/__init__.py`); its callers and integration
wrappers live in `src/examples.py`.  The core module itself is not present in
the tree, so its configuration resolver, event builder, delivery transport and
convenience entry point are modelled here from the specification; the
decorator and context-manager wrappers are embedded from `src/examples.py`.
-/

namespace HuntGlitch

/-- Small JSON value universe: the payload values carried by
`additional_data` (arbitrary JSON-serializable values) and the serialized
request body. -/
inductive JsonVal : Type where
  | null : JsonVal
  | bool : Bool → JsonVal
  | num : Int → JsonVal
  | str : String → JsonVal
  | arr : List JsonVal → JsonVal
  | obj : List (String × JsonVal) → JsonVal

/-- Modelled from the spec: the ambient process environment, restricted to the
two required named values the library reads (`PROJECT_KEY` and
`DELIVERABLE_KEY`, see spec section 6 and `src/examples.py` which passes
`os.getenv("PROJECT_KEY")` / `os.getenv("DELIVERABLE_KEY")`). -/
structure Env : Type where
  project_key : Option String
  deliverable_key : Option String

/-- Modelled from the spec (section 3): the resolved, immutable configuration
owned by a `HuntGlitchLogger` instance. -/
structure LoggerConfig : Type where
  project_key : String
  deliverable_key : String
  timeout_seconds : Nat
  max_retries : Nat
  silent_failures : Bool
deriving DecidableEq

/-- Modelled from the spec (section 2): the outcome of one HTTP attempt, as
the retry policy classifies it — success, a client-error status class
(4xx, terminal), a server-error status class (5xx, retryable), or a
network-level failure (retryable). -/
inductive AttemptResult : Type where
  | ok : AttemptResult
  | clientError : AttemptResult
  | serverError : AttemptResult
  | netFail : AttemptResult
deriving DecidableEq

/-- Modelled from the spec (section 7): the error taxonomy.
`ConfigurationError` carries the name of the missing required identifier;
`DeliveryError` carries the last failure detail. -/
inductive HGError : Type where
  | ConfigurationError : String → HGError
  | UsageError : HGError
  | DeliveryError : AttemptResult → HGError
deriving DecidableEq

/-- Modelled from the spec (section 3): the outcome returned to the caller by
the delivery transport. -/
structure DeliveryOutcome : Type where
  delivered : Bool
  attempts_made : Nat
  last_error : Option AttemptResult
deriving DecidableEq

/-- Modelled from the spec: a helper of the configuration resolver — keep an
optional string only when it is present and non-empty. -/
def nonEmpty : Option String → Option String
  | some s => if s = "" then none else some s
  | none => none

/-- Modelled from the spec (section 4.1): resolution of one required
identifier — the explicit constructor argument first, then the ambient
environment value; only non-empty strings count. -/
def firstNonEmpty (explicit env : Option String) : Option String :=
  match nonEmpty explicit with
  | some s => some s
  | none => nonEmpty env

/-- Modelled from the spec (section 4.1): the configuration resolver.
Explicit constructor arguments override ambient environment-sourced values;
if neither yields a non-empty string for a required identifier, it fails with
`ConfigurationError` identifying the missing key.  Optional tuning values
take the explicit value if provided, else the documented default
(timeout 10, retries 3, silent_failures false). -/
def resolveConfig (env : Env) (project_key deliverable_key : Option String)
    (timeout : Option Nat) (retries : Option Nat)
    (silent_failures : Option Bool) : Except HGError LoggerConfig :=
  match firstNonEmpty project_key env.project_key with
  | none => Except.error (HGError.ConfigurationError "PROJECT_KEY")
  | some pk =>
    match firstNonEmpty deliverable_key env.deliverable_key with
    | none => Except.error (HGError.ConfigurationError "DELIVERABLE_KEY")
    | some dk =>
      Except.ok ⟨pk, dk, timeout.getD 10, retries.getD 3,
        silent_failures.getD false⟩

/-- Modelled from the spec (section 4.2): the severity argument of the event
builder — a symbolic string or an integer code (`log_type` in
`src/examples.py` "Can use string or int"). -/
inductive SeverityInput : Type where
  | str : String → SeverityInput
  | int : Int → SeverityInput

/-- Modelled from the spec: whether a severity input is one of the recognized
values.  The numeric-to-symbolic mapping is left open by the spec
(section 9); we fix codes 1–4 for info/warning/error/critical. -/
def recognizedSeverity : SeverityInput → Bool
  | SeverityInput.str s =>
      s = "info" || s = "warning" || s = "error" || s = "critical"
  | SeverityInput.int n => n = 1 || n = 2 || n = 3 || n = 4

/-- Modelled from the spec (section 4.2): severity normalization — a
recognized symbolic string passes through, a recognized integer code maps to
its symbolic form, and every unknown value maps to the fallback severity
"error" rather than failing. -/
def normalizeSeverity : SeverityInput → String
  | SeverityInput.str s =>
      if s = "info" || s = "warning" || s = "error" || s = "critical" then s
      else "error"
  | SeverityInput.int n =>
      if n = 1 then "info"
      else if n = 2 then "warning"
      else if n = 3 then "error"
      else if n = 4 then "critical"
      else "error"

/-- Modelled from the spec (section 3): a normalized log record.  The
severity is stored in symbolic form; `additional_data` is a string-keyed
mapping of JSON-serializable values, `tags` a string-to-string mapping. -/
structure LogRecord : Type where
  error_name : String
  error_value : String
  source_file : String
  source_line : Nat
  severity : String
  additional_data : List (String × JsonVal)
  tags : List (String × String)

/-- Modelled from the spec (section 4.2): the event builder.  Total — the
build never fails; severity is normalized, everything else passes through. -/
def build (error_name error_value source_file : String) (source_line : Nat)
    (severity : SeverityInput) (additional_data : List (String × JsonVal))
    (tags : List (String × String)) : LogRecord :=
  ⟨error_name, error_value, source_file, source_line,
    normalizeSeverity severity, additional_data, tags⟩

/-- First-match association lookup in a serialized JSON object. -/
def lookupField : List (String × JsonVal) → String → Option JsonVal
  | [], _ => none
  | (k, v) :: rest, key => if k = key then some v else lookupField rest key

/-- Modelled from the spec (section 6, wire contract): serialization of a
`LogRecord` plus the config's routing keys into the request body posted to
the fixed remote endpoint. -/
def serializeBody (cfg : LoggerConfig) (r : LogRecord) :
    List (String × JsonVal) :=
  [("project_key", JsonVal.str cfg.project_key),
   ("deliverable_key", JsonVal.str cfg.deliverable_key),
   ("error_name", JsonVal.str r.error_name),
   ("error_value", JsonVal.str r.error_value),
   ("source_file", JsonVal.str r.source_file),
   ("source_line", JsonVal.num r.source_line),
   ("severity", JsonVal.str r.severity),
   ("additional_data", JsonVal.obj r.additional_data),
   ("tags", JsonVal.obj (r.tags.map fun p => (p.1, JsonVal.str p.2)))]

/-- The structure the simulated endpoint receives in the `additional_data`
field of the request body. -/
def endpointReceivedData (cfg : LoggerConfig) (r : LogRecord) :
    List (String × JsonVal) :=
  match lookupField (serializeBody cfg r) "additional_data" with
  | some (JsonVal.obj m) => m
  | _ => []

/-- Whether an attempt outcome is transient (retryable): a network-level
failure or a server-error status class. -/
def isTransient : AttemptResult → Bool
  | AttemptResult.serverError => true
  | AttemptResult.netFail => true
  | AttemptResult.ok => false
  | AttemptResult.clientError => false

/-- Result of the retry loop: the final attempt number together with success,
or the last failure detail. -/
inductive DelivResult : Type where
  | success : Nat → DelivResult
  | failure : Nat → AttemptResult → DelivResult
deriving DecidableEq

/-- Modelled from the spec (section 4.3): the retry loop of the delivery
transport.  `endpoint i` is the simulated endpoint's response to the i-th
HTTP attempt;  the first argument is the number of retries still allowed.
Success stops;  a client-error status class is terminal and never retried;
a server error or network failure is retried while retries remain. -/
def attemptFrom (endpoint : Nat → AttemptResult) :
    Nat → Nat → DelivResult
  | 0, attempt =>
    match endpoint attempt with
    | AttemptResult.ok => DelivResult.success attempt
    | AttemptResult.clientError =>
        DelivResult.failure attempt AttemptResult.clientError
    | AttemptResult.serverError =>
        DelivResult.failure attempt AttemptResult.serverError
    | AttemptResult.netFail =>
        DelivResult.failure attempt AttemptResult.netFail
  | n + 1, attempt =>
    match endpoint attempt with
    | AttemptResult.ok => DelivResult.success attempt
    | AttemptResult.clientError =>
        DelivResult.failure attempt AttemptResult.clientError
    | AttemptResult.serverError => attemptFrom endpoint n (attempt + 1)
    | AttemptResult.netFail => attemptFrom endpoint n (attempt + 1)

/-- Modelled from the spec (section 4.3): the delivery transport.  Runs the
retry loop with `config.max_retries` additional attempts allowed after the
first;  on success returns `DeliveryOutcome` with `delivered = true` and the
actual attempt count;  on a terminal failure or exhausted retries, returns
`delivered = false` when `silent_failures` is set and otherwise fails with
`DeliveryError` carrying the last failure detail. -/
def deliver (cfg : LoggerConfig) (rcd : LogRecord)
    (endpoint : Nat → AttemptResult) : Except HGError DeliveryOutcome :=
  match attemptFrom endpoint cfg.max_retries 1 with
  | DelivResult.success a => Except.ok ⟨true, a, none⟩
  | DelivResult.failure a e =>
      if cfg.silent_failures then Except.ok ⟨false, a, some e⟩
      else Except.error (HGError.DeliveryError e)

/-- Modelled from the spec (section 4.2): the active exception context the
exception-capture variant reads — type name, message and originating source
location. -/
structure ActiveException : Type where
  exc_type : String
  exc_message : String
  source_file : String
  source_line : Nat

/-- Modelled from the spec (section 4.4): `capture_exception_and_report` —
composes ambient configuration resolution, the exception-capture builder and
the delivery transport.  Invoked with no active exception it reports the
misuse as a returned `false` without attempting any network call.  The
second component of the result counts the HTTP attempts performed. -/
def capture_exception_and_report (env : Env)
    (activeExc : Option ActiveException)
    (additional_data : List (String × JsonVal))
    (tags : List (String × String))
    (endpoint : Nat → AttemptResult) : Except HGError (Bool × Nat) :=
  match activeExc with
  | none => Except.ok (false, 0)
  | some exc =>
    match resolveConfig env none none none none none with
    | Except.error e => Except.error e
    | Except.ok cfg =>
      let rcd := build exc.exc_type exc.exc_message exc.source_file
        exc.source_line (SeverityInput.str "error") additional_data tags
      match deliver cfg rcd endpoint with
      | Except.ok o => Except.ok (o.delivered, o.attempts_made)
      | Except.error e => Except.error e

/-- From `src/examples.py` (`error_logging_decorator`, lines 85–103): the
wrapper runs the function, and when an exception propagates it calls
`capture_exception_and_report` once and re-raises the very same exception.
The second component counts the reports performed. -/
def error_logging_decorator {α β : Type} (func : α → Except String β)
    (x : α) : Except String β × Nat :=
  match func x with
  | Except.ok v => (Except.ok v, 0)
  | Except.error e => (Except.error e, 1)

namespace ErrorLoggingContext

/-- From `src/examples.py` (`ErrorLoggingContext.__exit__`, lines 169–177):
when an exception type is propagating, `capture_exception` is called once;
the handler returns `False` in every case, never suppressing the exception.
The first component is the returned suppression flag, the second counts the
reports performed. -/
def exit (exc_type : Option String) : Bool × Nat :=
  match exc_type with
  | some _ => (false, 1)
  | none => (false, 0)

end ErrorLoggingContext

/-! ## Helper lemmas about the retry loop -/

/-- Against an endpoint that always answers with a server error, the retry
loop starting at attempt `s` with `n` retries allowed stops after attempt
`s + n` with the server error as the last failure. -/
theorem attemptFrom_allServerError (endpoint : Nat → AttemptResult)
    (h : ∀ i, endpoint i = AttemptResult.serverError) :
    ∀ n s, attemptFrom endpoint n s =
      DelivResult.failure (s + n) AttemptResult.serverError := by
  intro n
  induction n with
  | zero => intro s; simp [attemptFrom, h s]
  | succ n ih =>
    intro s
    simp only [attemptFrom, h s]
    rw [ih (s + 1)]
    congr 1
    omega

/-- If the endpoint answers transiently on attempts `s, …, s + k - 1` and
acknowledges on attempt `s + k`, and at least `k` retries are allowed, the
retry loop succeeds at attempt `s + k`. -/
theorem attemptFrom_transient_prefix (endpoint : Nat → AttemptResult) :
    ∀ k s n, k ≤ n →
      (∀ i, s ≤ i → i < s + k → isTransient (endpoint i) = true) →
      endpoint (s + k) = AttemptResult.ok →
      attemptFrom endpoint n s = DelivResult.success (s + k) := by
  intro k
  induction k with
  | zero =>
    intro s n _ _ hok
    have hs : endpoint s = AttemptResult.ok := by simpa using hok
    cases n <;> simp [attemptFrom, hs]
  | succ k ih =>
    intro s n hkn htrans hok
    have hts : isTransient (endpoint s) = true :=
      htrans s (Nat.le_refl s) (by omega)
    obtain ⟨m, rfl⟩ : ∃ m, n = m + 1 := ⟨n - 1, by omega⟩
    have hrec : attemptFrom endpoint m (s + 1) =
        DelivResult.success (s + 1 + k) := by
      apply ih (s + 1) m (by omega)
      · intro i h1 h2
        exact htrans i (by omega) (by omega)
      · have he : s + 1 + k = s + (k + 1) := by omega
        rw [he]
        exact hok
    have hres : attemptFrom endpoint (m + 1) s =
        attemptFrom endpoint m (s + 1) := by
      cases hE : endpoint s with
      | ok => rw [hE] at hts; simp [isTransient] at hts
      | clientError => rw [hE] at hts; simp [isTransient] at hts
      | serverError => simp [attemptFrom, hE]
      | netFail => simp [attemptFrom, hE]
    rw [hres, hrec]
    congr 1
    omega

/-! ## Claim theorems -/

/-- Claim C1: against an endpoint that always responds with a server-error
status class, `deliver` performs exactly `max_retries + 1` attempts in
total, and then returns an outcome with `delivered = false` when
`silent_failures` is true, and fails with `DeliveryError` carrying the last
failure detail when `silent_failures` is false. -/
theorem deliver_server_error_exhausts_retries
    (cfg : LoggerConfig) (rcd : LogRecord) (endpoint : Nat → AttemptResult)
    (h : ∀ i, endpoint i = AttemptResult.serverError) :
    attemptFrom endpoint cfg.max_retries 1 =
      DelivResult.failure (cfg.max_retries + 1) AttemptResult.serverError ∧
    (cfg.silent_failures = true →
      deliver cfg rcd endpoint = Except.ok
        ⟨false, cfg.max_retries + 1, some AttemptResult.serverError⟩) ∧
    (cfg.silent_failures = false →
      deliver cfg rcd endpoint =
        Except.error (HGError.DeliveryError AttemptResult.serverError)) := by
  have h1 := attemptFrom_allServerError endpoint h cfg.max_retries 1
  rw [Nat.add_comm 1 cfg.max_retries] at h1
  refine ⟨h1, ?_, ?_⟩ <;> intro hs <;> simp [deliver, h1, hs]

/-- Claim C1, witness: with `max_retries = 2` and an endpoint that always
answers with a server error, the silent configuration returns a
non-delivered outcome after 3 attempts and the loud one raises
`DeliveryError`. -/
theorem deliver_server_error_exhausts_retries_witness :
    deliver ⟨"p", "d", 10, 2, true⟩
        (build "E" "v" "f" 1 (SeverityInput.str "error") [] [])
        (fun _ => AttemptResult.serverError) =
      Except.ok ⟨false, 3, some AttemptResult.serverError⟩ ∧
    deliver ⟨"p", "d", 10, 2, false⟩
        (build "E" "v" "f" 1 (SeverityInput.str "error") [] [])
        (fun _ => AttemptResult.serverError) =
      Except.error (HGError.DeliveryError AttemptResult.serverError) :=
  ⟨(deliver_server_error_exhausts_retries ⟨"p", "d", 10, 2, true⟩
      (build "E" "v" "f" 1 (SeverityInput.str "error") [] [])
      (fun _ => AttemptResult.serverError) (fun _ => rfl)).2.1 rfl,
   (deliver_server_error_exhausts_retries ⟨"p", "d", 10, 2, false⟩
      (build "E" "v" "f" 1 (SeverityInput.str "error") [] [])
      (fun _ => AttemptResult.serverError) (fun _ => rfl)).2.2 rfl⟩

/-- Claim C2: against an endpoint that responds with a client-error status
class on the first attempt, `deliver` performs exactly one attempt, never
retries (for every `max_retries`), and reports the failure immediately:
a non-delivered outcome with `attempts_made = 1` under `silent_failures`,
a `DeliveryError` otherwise. -/
theorem deliver_client_error_no_retry
    (cfg : LoggerConfig) (rcd : LogRecord) (endpoint : Nat → AttemptResult)
    (h : endpoint 1 = AttemptResult.clientError) :
    attemptFrom endpoint cfg.max_retries 1 =
      DelivResult.failure 1 AttemptResult.clientError ∧
    (cfg.silent_failures = true →
      deliver cfg rcd endpoint = Except.ok
        ⟨false, 1, some AttemptResult.clientError⟩) ∧
    (cfg.silent_failures = false →
      deliver cfg rcd endpoint =
        Except.error (HGError.DeliveryError AttemptResult.clientError)) := by
  have h1 : attemptFrom endpoint cfg.max_retries 1 =
      DelivResult.failure 1 AttemptResult.clientError := by
    cases hm : cfg.max_retries <;> simp [attemptFrom, h]
  refine ⟨h1, ?_, ?_⟩ <;> intro hs <;> simp [deliver, h1, hs]

/-- Claim C2, witness: with `max_retries = 3` and an endpoint answering a
client error on the first attempt, delivery stops after exactly one
attempt. -/
theorem deliver_client_error_no_retry_witness :
    deliver ⟨"p", "d", 10, 3, true⟩
        (build "E" "v" "f" 1 (SeverityInput.str "error") [] [])
        (fun _ => AttemptResult.clientError) =
      Except.ok ⟨false, 1, some AttemptResult.clientError⟩ :=
  (deliver_client_error_no_retry ⟨"p", "d", 10, 3, true⟩
      (build "E" "v" "f" 1 (SeverityInput.str "error") [] [])
      (fun _ => AttemptResult.clientError) rfl).2.1 rfl

/-- Claim C3: if the endpoint fails transiently on the first `N` attempts
and acknowledges on attempt `N + 1`, with `N < max_retries`, then `deliver`
returns a delivered outcome with `attempts_made = N + 1`. -/
theorem deliver_transient_then_success
    (cfg : LoggerConfig) (rcd : LogRecord) (endpoint : Nat → AttemptResult)
    (N : Nat) (hN : N < cfg.max_retries)
    (htrans : ∀ i, 1 ≤ i → i ≤ N → isTransient (endpoint i) = true)
    (hok : endpoint (N + 1) = AttemptResult.ok) :
    deliver cfg rcd endpoint = Except.ok ⟨true, N + 1, none⟩ := by
  have h := attemptFrom_transient_prefix endpoint N 1 cfg.max_retries
    (by omega) (fun i h1 h2 => htrans i h1 (by omega))
    (by rw [Nat.add_comm 1 N]; exact hok)
  rw [Nat.add_comm 1 N] at h
  simp [deliver, h]

/-- Claim C3, witness: an endpoint that fails with a server error on
attempts 1 and 2 and acknowledges from attempt 3 on, under
`max_retries = 3`, yields a delivered outcome with `attempts_made = 3`. -/
theorem deliver_transient_then_success_witness :
    deliver ⟨"p", "d", 10, 3, false⟩
        (build "E" "v" "f" 1 (SeverityInput.str "error") [] [])
        (fun i => if 3 ≤ i then AttemptResult.ok else AttemptResult.serverError) =
      Except.ok ⟨true, 3, none⟩ :=
  deliver_transient_then_success ⟨"p", "d", 10, 3, false⟩
    (build "E" "v" "f" 1 (SeverityInput.str "error") [] [])
    (fun i => if 3 ≤ i then AttemptResult.ok else AttemptResult.serverError)
    2 (by decide)
    (fun i h1 h2 => by
      have hn : ¬ 3 ≤ i := by omega
      simp [hn, isTransient])
    (by decide)

/-- Claim C4: constructing a logger succeeds for every pair of non-empty
`(project_key, deliverable_key)` values; when a required identifier yields
no non-empty string from the explicit argument nor from the environment,
construction fails with `ConfigurationError` naming the missing key — and
this failure does not depend on the `silent_failures` argument. -/
theorem logger_construction_requires_keys
    (env : Env) (pkArg dkArg : Option String) (t r : Option Nat)
    (s : Option Bool) :
    (∀ pk dk, pkArg = some pk → pk ≠ "" → dkArg = some dk → dk ≠ "" →
      ∃ cfg, resolveConfig env pkArg dkArg t r s = Except.ok cfg ∧
        cfg.project_key = pk ∧ cfg.deliverable_key = dk) ∧
    (firstNonEmpty pkArg env.project_key = none →
      resolveConfig env pkArg dkArg t r s =
        Except.error (HGError.ConfigurationError "PROJECT_KEY")) ∧
    (firstNonEmpty pkArg env.project_key ≠ none →
      firstNonEmpty dkArg env.deliverable_key = none →
      resolveConfig env pkArg dkArg t r s =
        Except.error (HGError.ConfigurationError "DELIVERABLE_KEY")) := by
  refine ⟨?_, ?_, ?_⟩
  · rintro pk dk rfl hpk rfl hdk
    refine ⟨⟨pk, dk, t.getD 10, r.getD 3, s.getD false⟩, ?_, rfl, rfl⟩
    simp [resolveConfig, firstNonEmpty, nonEmpty, hpk, hdk]
  · intro h
    simp [resolveConfig, h]
  · intro h1 h2
    obtain ⟨pk, hpk⟩ := Option.ne_none_iff_exists'.mp h1
    simp [resolveConfig, hpk, h2]

/-- Claim C4, witness: the pair ("p", "d") constructs successfully, while
with both the explicit argument and the environment missing the resolver
fails with `ConfigurationError "PROJECT_KEY"` even under
`silent_failures = true`. -/
theorem logger_construction_requires_keys_witness :
    (∃ cfg, resolveConfig ⟨none, none⟩ (some "p") (some "d")
        none none none = Except.ok cfg ∧
      cfg.project_key = "p" ∧ cfg.deliverable_key = "d") ∧
    resolveConfig ⟨none, none⟩ none none none none (some true) =
      Except.error (HGError.ConfigurationError "PROJECT_KEY") :=
  ⟨(logger_construction_requires_keys ⟨none, none⟩ (some "p") (some "d")
      none none none).1 "p" "d" rfl (by decide) rfl (by decide),
   (logger_construction_requires_keys ⟨none, none⟩ none none none none
      (some true)).2.1 rfl⟩

/-- Claim C5: `capture_exception_and_report` invoked while no exception is
the active error context returns `false` without performing any network
call (zero HTTP attempts) and does not raise. -/
theorem capture_no_active_exception (env : Env)
    (additional_data : List (String × JsonVal))
    (tags : List (String × String)) (endpoint : Nat → AttemptResult) :
    capture_exception_and_report env none additional_data tags endpoint =
      Except.ok (false, 0) := rfl

/-- Claim C6: the built record's severity is always one of the closed
symbolic set info/warning/error/critical, every unrecognized severity input
maps to the fallback "error", and the build is total in the severity
value. -/
theorem build_severity_normalized (error_name error_value source_file : String)
    (source_line : Nat) (sev : SeverityInput)
    (additional_data : List (String × JsonVal))
    (tags : List (String × String)) :
    ((build error_name error_value source_file source_line sev
        additional_data tags).severity = "info" ∨
     (build error_name error_value source_file source_line sev
        additional_data tags).severity = "warning" ∨
     (build error_name error_value source_file source_line sev
        additional_data tags).severity = "error" ∨
     (build error_name error_value source_file source_line sev
        additional_data tags).severity = "critical") ∧
    (recognizedSeverity sev = false →
      (build error_name error_value source_file source_line sev
        additional_data tags).severity = "error") := by
  constructor
  · cases sev with
    | str s =>
      simp only [build, normalizeSeverity]
      by_cases h : (s = "info" || s = "warning" || s = "error" ||
          s = "critical") = true
      · rw [if_pos h]
        simp only [Bool.or_eq_true, decide_eq_true_eq] at h
        tauto
      · rw [if_neg h]
        tauto
    | int n =>
      simp only [build, normalizeSeverity]
      split
      · tauto
      · split
        · tauto
        · split
          · tauto
          · split <;> tauto
  · intro h
    cases sev with
    | str s =>
      simp only [recognizedSeverity] at h
      simp [build, normalizeSeverity, h]
    | int n =>
      simp only [recognizedSeverity, Bool.or_eq_false_iff,
        decide_eq_false_iff_not] at h
      simp only [build, normalizeSeverity]
      rw [if_neg h.1.1.1, if_neg h.1.1.2, if_neg h.1.2, if_neg h.2]

/-- Claim C6, witness: the unrecognized integer code 99 is normalized to the
fallback severity "error". -/
theorem build_severity_normalized_witness :
    (build "E" "v" "f" 1 (SeverityInput.int 99) [] []).severity = "error" :=
  (build_severity_normalized "E" "v" "f" 1 (SeverityInput.int 99) [] []).2
    (by decide)

/-- The serialized body hands the endpoint exactly the record's
`additional_data` mapping. -/
theorem endpointReceivedData_eq (cfg : LoggerConfig) (r : LogRecord) :
    endpointReceivedData cfg r = r.additional_data := rfl

/-- Claim C7: for every record, the `additional_data` structure the
simulated endpoint receives in the serialized body is equivalent to the
built mapping — every key looks up to the same value — and the received
structure depends only on the mapping's lookup function, not on key
order. -/
theorem serialize_additional_data_roundtrip (cfg : LoggerConfig)
    (r : LogRecord) :
    lookupField (serializeBody cfg r) "additional_data" =
      some (JsonVal.obj r.additional_data) ∧
    (∀ k, lookupField (endpointReceivedData cfg r) k =
      lookupField r.additional_data k) ∧
    (∀ (cfg2 : LoggerConfig) (r2 : LogRecord),
      (∀ k, lookupField r.additional_data k =
        lookupField r2.additional_data k) →
      ∀ k, lookupField (endpointReceivedData cfg r) k =
        lookupField (endpointReceivedData cfg2 r2) k) := by
  refine ⟨rfl, fun k => rfl, fun cfg2 r2 h k => ?_⟩
  rw [endpointReceivedData_eq, endpointReceivedData_eq]
  exact h k

/-- Claim C7, witness: a record with `additional_data`
[("a", 1), ("b", "x")] serializes so that the endpoint receives a structure
in which "a" looks up to 1 and "b" to "x", and a record carrying the same
mapping with the keys in the opposite order is received equivalently. -/
theorem serialize_additional_data_roundtrip_witness :
    lookupField
      (endpointReceivedData ⟨"p", "d", 10, 3, false⟩
        (build "E" "v" "f" 1 (SeverityInput.str "info")
          [("a", JsonVal.num 1), ("b", JsonVal.str "x")] []))
      "a" = some (JsonVal.num 1) ∧
    lookupField
      (endpointReceivedData ⟨"p", "d", 10, 3, false⟩
        (build "E" "v" "f" 1 (SeverityInput.str "info")
          [("a", JsonVal.num 1), ("b", JsonVal.str "x")] []))
      "b" =
      lookupField
        (endpointReceivedData ⟨"p", "d", 10, 3, false⟩
          (build "E" "v" "f" 1 (SeverityInput.str "info")
            [("b", JsonVal.str "x"), ("a", JsonVal.num 1)] []))
        "b" :=
  ⟨((serialize_additional_data_roundtrip ⟨"p", "d", 10, 3, false⟩
      (build "E" "v" "f" 1 (SeverityInput.str "info")
        [("a", JsonVal.num 1), ("b", JsonVal.str "x")] [])).2.1 "a").trans
      rfl,
   (serialize_additional_data_roundtrip ⟨"p", "d", 10, 3, false⟩
      (build "E" "v" "f" 1 (SeverityInput.str "info")
        [("a", JsonVal.num 1), ("b", JsonVal.str "x")] [])).2.2
      ⟨"p", "d", 10, 3, false⟩
      (build "E" "v" "f" 1 (SeverityInput.str "info")
        [("b", JsonVal.str "x"), ("a", JsonVal.num 1)] [])
      (fun k => by
        simp only [build, lookupField]
        by_cases h1 : "a" = k
        · have h2 : ¬ "b" = k := fun hb => by
            have hab : "a" = "b" := h1.trans hb.symm
            exact absurd hab (by decide)
          rw [if_pos h1, if_neg h2, if_pos h1]
        · by_cases h2 : "b" = k
          · rw [if_neg h1, if_pos h2, if_pos h2]
          · rw [if_neg h1, if_neg h2, if_neg h2, if_neg h1])
      "b"⟩

/-- Claim C8: a logger constructed without explicit values for the optional
tuning parameters resolves to exactly the documented defaults:
`timeout_seconds = 10`, `max_retries = 3`, `silent_failures = false`. -/
theorem config_defaults (env : Env) (pkArg dkArg : Option String)
    (pk dk : String)
    (hpk : firstNonEmpty pkArg env.project_key = some pk)
    (hdk : firstNonEmpty dkArg env.deliverable_key = some dk) :
    resolveConfig env pkArg dkArg none none none =
      Except.ok ⟨pk, dk, 10, 3, false⟩ := by
  simp [resolveConfig, hpk, hdk]

/-- Claim C8, witness: with the identifiers taken from the environment and
no explicit tuning values, the resolved configuration is
⟨"ep", "ed", 10, 3, false⟩. -/
theorem config_defaults_witness :
    resolveConfig ⟨some "ep", some "ed"⟩ none none none none none =
      Except.ok ⟨"ep", "ed", 10, 3, false⟩ :=
  config_defaults ⟨some "ep", some "ed"⟩ none none "ep" "ed"
    (by decide) (by decide)

/-- Claim C9: when an explicit constructor argument and an ambient
environment value are both present, the resolved configuration takes every
explicitly passed value — identifiers and tuning parameters alike — never
the environment's. -/
theorem explicit_overrides_environment (env : Env) (pk dk : String)
    (tv rv : Nat) (sv : Bool) (hpk : pk ≠ "") (hdk : dk ≠ "") :
    resolveConfig env (some pk) (some dk) (some tv) (some rv) (some sv) =
      Except.ok ⟨pk, dk, tv, rv, sv⟩ := by
  simp [resolveConfig, firstNonEmpty, nonEmpty, hpk, hdk]

/-- Claim C9, witness: with the environment holding ("envp", "envd"), the
explicit arguments ("p", "d", 15, 2, true) win for every key. -/
theorem explicit_overrides_environment_witness :
    resolveConfig ⟨some "envp", some "envd"⟩ (some "p") (some "d")
        (some 15) (some 2) (some true) =
      Except.ok ⟨"p", "d", 15, 2, true⟩ :=
  explicit_overrides_environment ⟨some "envp", some "envd"⟩ "p" "d"
    15 2 true (by decide) (by decide)

/-- Claim C10: the decorator-wrapped callable reports a propagating
exception exactly once and re-raises the very same exception, performs no
report on a non-raising execution, and the context manager's exit handler
returns `False` in every case — reporting exactly once when an exception
type is present and never when there is none. -/
theorem wrappers_report_and_reraise {α β : Type}
    (func : α → Except String β) (x : α) :
    (∀ e, func x = Except.error e →
      error_logging_decorator func x = (Except.error e, 1)) ∧
    (∀ v, func x = Except.ok v →
      error_logging_decorator func x = (Except.ok v, 0)) ∧
    (∀ exc, (ErrorLoggingContext.exit exc).1 = false) ∧
    (∀ e, ErrorLoggingContext.exit (some e) = (false, 1)) ∧
    ErrorLoggingContext.exit none = (false, 0) := by
  refine ⟨?_, ?_, ?_, fun e => rfl, rfl⟩
  · intro e he
    simp [error_logging_decorator, he]
  · intro v hv
    simp [error_logging_decorator, hv]
  · intro exc
    cases exc <;> rfl

/-- Claim C10, witness: a callable raising "boom" on input 0 is wrapped
into one that reports once and re-raises "boom"; the same callable
returning 7 on input 1 is wrapped into one that reports nothing; and the
context manager's exit on a propagating "boom" reports once while
returning `False`. -/
theorem wrappers_report_and_reraise_witness :
    error_logging_decorator
        (fun n : Nat => if n = 0 then Except.error "boom" else Except.ok 7)
        0 = (Except.error "boom", 1) ∧
    error_logging_decorator
        (fun n : Nat => if n = 0 then Except.error "boom" else Except.ok 7)
        1 = (Except.ok 7, 0) ∧
    ErrorLoggingContext.exit (some "boom") = (false, 1) :=
  ⟨(wrappers_report_and_reraise
      (fun n : Nat => if n = 0 then Except.error "boom" else Except.ok 7)
      0).1 "boom" rfl,
   (wrappers_report_and_reraise
      (fun n : Nat => if n = 0 then Except.error "boom" else Except.ok 7)
      1).2.1 7 rfl,
   (wrappers_report_and_reraise
      (fun n : Nat => if n = 0 then Except.error "boom" else Except.ok 7)
      0).2.2.2.1 "boom"⟩

end HuntGlitch
